import Mathlib

/-!
Shallow embedding of `src/static/app.js`, the browser-side client of the
activities signup service.  The script wires three handlers to the DOM:

* `fetchActivities`  (app.js lines 8-83): GET /activities, render cards and
  dropdown options;
* the delete-button click handler (lines 42-70): DELETE .../unregister and
  update the clicked card;
* the signup form submit handler (lines 86-123): POST .../signup and show a
  transient message.

The DOM regions the script touches are modelled as a record `Dom`; each
handler becomes a pure transition on `Dom`, parameterised by the outcome of
its single network call.  `setTimeout` calls are returned as a list of
scheduled timers (delay, action on the `Dom` at firing time).
-/

namespace App

/-- The parsed JSON value of one activity, as `fetchActivities` reads it:
`details.description`, `details.schedule`, `details.max_participants`,
`details.participants` (app.js lines 21-33). -/
structure ActivityDetails where
  description : String
  schedule : String
  max_participants : Nat
  participants : List String
deriving Repr, DecidableEq

/-- The delete button rendered inside a participant row (app.js line 24):
`data-activity` and `data-email` attributes. -/
structure DeleteBtn where
  dataActivity : String
  dataEmail : String
deriving Repr, DecidableEq

/-- One `<li>` participant row (app.js line 24): a span with the email text
and the delete button. -/
structure Row where
  spanText : String
  btn : DeleteBtn
deriving Repr, DecidableEq

/-- One activity card as built by `activityCard.innerHTML = ...`
(app.js lines 27-36).  Each field holds the text content of the
corresponding element. -/
structure Card where
  h4 : String
  descriptionText : String
  scheduleText : String
  spotsText : String
  h5 : String
  rows : List Row
deriving Repr, DecidableEq

/-- An `<option>` appended to the activity select (app.js lines 74-77). -/
structure SelectOption where
  value : String
  label : String
deriving Repr, DecidableEq

/-- Content of the `#activities-list` container: the initial loading
message, a list of rendered cards, or the static failure notice written by
the catch branch (app.js line 80). -/
inductive ListArea
  | loading
  | content (cards : List Card)
  | notice
deriving Repr, DecidableEq

/-- The DOM state the script reads and writes: the activities list, the
select's options, the message div (text, class, hidden flag) and the form
fields. -/
structure Dom where
  activitiesList : ListArea
  selectOptions : List SelectOption
  messageText : String
  messageClass : String
  messageHidden : Bool
  emailValue : String
  selectedActivity : String
deriving Repr, DecidableEq

/-- JavaScript `x || fallback` on an optional string field of a parsed JSON
body: a missing field (`undefined`) and the empty string are falsy. -/
def jsOr (x : Option String) (fallback : String) : String :=
  match x with
  | none => fallback
  | some s => if s = "" then fallback else s

/-- `details.max_participants - details.participants.length`
(app.js line 21).  JS number subtraction, so the result may be negative. -/
def spotsLeft (d : ActivityDetails) : Int :=
  (d.max_participants : Int) - (d.participants.length : Int)

/-- The heading text `Current Participants (n)` (app.js line 33 and 61). -/
def countText (n : Int) : String :=
  "Current Participants (" ++ toString n ++ ")"

/-- One card rendered from an activity entry (app.js lines 17-36). -/
def renderCard (name : String) (d : ActivityDetails) : Card :=
  { h4 := name
  , descriptionText := d.description
  , scheduleText := d.schedule
  , spotsText := toString (spotsLeft d) ++ "/" ++ toString d.max_participants
  , h5 := countText (d.participants.length : Int)
  , rows := d.participants.map (fun p => { spanText := p, btn := { dataActivity := name, dataEmail := p } }) }

/-- The dropdown option for an activity (app.js lines 74-77): the name is
both value and label. -/
def renderOption (name : String) : SelectOption :=
  { value := name, label := name }

/-- One entry of `Object.entries(activities)`.  `some d` is a well-formed
details object; `none` stands for a malformed value whose rendering throws
(e.g. `details.participants` is `undefined`, so `.length` at app.js line 21
throws a TypeError). -/
abbrev Entry := String × Option ActivityDetails

/-- Outcome of the `fetch("/activities")` call together with
`response.json()`: a network error (the fetch rejected), or a response with
its status-ok flag and its parsed body (`none` when `json()` throws on an
invalid body). -/
inductive FetchOutcome
  | networkError
  | response (ok : Bool) (body : Option (List Entry))
deriving Repr, DecidableEq

/-- Append a card to the list area (app.js line 38). -/
def appendCard (a : ListArea) (c : Card) : ListArea :=
  match a with
  | .content cs => .content (cs ++ [c])
  | other => other

/-- The `Object.entries(...).forEach` loop of app.js lines 17-78: for each
well-formed entry append its card, then its option; a malformed entry
throws, so control jumps to the catch branch (line 80), which replaces the
list content with the failure notice and leaves the options as accumulated
so far. -/
def renderLoop (dom : Dom) : List Entry → Dom
  | [] => dom
  | (name, some d) :: rest =>
      renderLoop
        { dom with
          activitiesList := appendCard dom.activitiesList (renderCard name d)
          selectOptions := dom.selectOptions ++ [renderOption name] } rest
  | (_, none) :: _ => { dom with activitiesList := ListArea.notice }

/-- `fetchActivities` (app.js lines 8-83).  Note that the response status is
never inspected: `response.ok` plays no role, and the catch branch is
reached only when the fetch rejects, `response.json()` throws, or the
rendering loop throws.  On the happy path, `activitiesList.innerHTML = ""`
(line 14) clears the list before rendering, but the select's options are
never cleared — options are only appended (line 77). -/
def fetchActivities (dom : Dom) (outcome : FetchOutcome) : Dom :=
  match outcome with
  | .networkError => { dom with activitiesList := ListArea.notice }
  | .response _ body =>
    match body with
    | none => { dom with activitiesList := ListArea.notice }
    | some entries => renderLoop { dom with activitiesList := ListArea.content [] } entries

/-- The digits of the first maximal digit run of a character list, starting
at a digit already found. -/
def digitsFrom : List Char → List Char
  | [] => []
  | c :: cs => if c.isDigit then c :: digitsFrom cs else []

/-- The first maximal run of decimal digits in a character list, `none` when
there is no digit: the JS regexp match `/\d+/`. -/
def firstDigitRun : List Char → Option (List Char)
  | [] => none
  | c :: cs => if c.isDigit then some (c :: digitsFrom cs) else firstDigitRun cs

/-- Numeric value of a digit list (most significant first). -/
def digitsToNat (ds : List Char) : Nat :=
  ds.foldl (fun acc c => acc * 10 + (c.toNat - 48)) 0

/-- `parseInt(s.match(/\d+/)[0])` (app.js line 60): the value of the first
digit run of `s`; `none` models the TypeError thrown when `match` returns
`null`. -/
def parseFirstNat (s : String) : Option Nat :=
  (firstDigitRun s.data).map digitsToNat

/-- The hardcoded fallback of the unregister alert (app.js lines 64 and 67). -/
def unregisterFallback : String := "Failed to unregister participant"

/-- Outcome of the DELETE unregister fetch (app.js lines 48-53): the fetch
rejected, or a response arrived.  For a non-ok response the handler parses
the body (line 63): `none` means `response.json()` threw, `some d` is the
parsed body's optional `detail` field. -/
inductive DeleteOutcome
  | ok
  | notOk (body : Option (Option String))
  | networkError
deriving Repr, DecidableEq

/-- The success branch of the delete handler on the clicked card
(app.js lines 55-61): remove the clicked row, then rewrite the h5 heading to
`Current Participants (parsed - 1)` where `parsed` is the first number in
the current heading text.  When the heading has no digits the parse throws
after the row was already removed; the catch branch (line 67) then raises
the generic alert.  Returns the updated card and the alert text, if any. -/
def applyDeleteOk (card : Card) (rowIdx : Nat) : Card × Option String :=
  let card1 := { card with rows := card.rows.eraseIdx rowIdx }
  match parseFirstNat card1.h5 with
  | some n => ({ card1 with h5 := countText ((n : Int) - 1) }, none)
  | none => (card1, some unregisterFallback)

/-- The delete-button click handler (app.js lines 42-70) for the button of
row `rowIdx` of card `cardIdx`.  Only the clicked card is ever touched; on
failure nothing is touched and an alert is shown with the server detail when
present (and truthy), else the generic fallback.  Returns the new DOM and
the alert text, if any.  The `none`/non-`content` fallthroughs are
unreachable for a real click: the button exists in the rendered card. -/
def deleteHandler (dom : Dom) (cardIdx rowIdx : Nat) (outcome : DeleteOutcome) :
    Dom × Option String :=
  match outcome with
  | .ok =>
    match dom.activitiesList with
    | .content cards =>
      match cards.get? cardIdx with
      | some card =>
        let res := applyDeleteOk card rowIdx
        ({ dom with activitiesList := ListArea.content (cards.set cardIdx res.1) }, res.2)
      | none => (dom, none)
    | _ => (dom, none)
  | .notOk body =>
    match body with
    | none => (dom, some unregisterFallback)
    | some detail => (dom, some (jsOr detail unregisterFallback))
  | .networkError => (dom, some unregisterFallback)

/-- The parsed JSON body of a signup response: its optional `message` and
`detail` string fields (app.js lines 100-107). -/
structure SignupBody where
  message : Option String
  detail : Option String
deriving Repr, DecidableEq

/-- Outcome of the POST signup fetch (app.js lines 93-98) together with
`response.json()` (line 100): a network error (fetch rejected), or a
response with its status-ok flag and its parsed body (`none` when `json()`
throws — note the body is parsed before `response.ok` is inspected, so an
ok response with an invalid body also lands in the catch branch). -/
inductive SignupOutcome
  | networkError
  | response (ok : Bool) (body : Option SignupBody)
deriving Repr, DecidableEq

/-- `messageDiv.textContent = result.message` (app.js line 103): assigning
`undefined` to the nullable DOMString attribute stores null, which the DOM
treats as the empty string. -/
def textContentOf (x : Option String) : String := x.getD ""

/-- The generic catch-branch message of the signup handler (app.js line 118). -/
def signupNetworkFailText : String := "Failed to sign up. Please try again."

/-- The fallback shown for a non-ok signup response without a truthy
`detail` (app.js line 107). -/
def signupErrorFallback : String := "An error occurred"

/-- A timer scheduled with `setTimeout`: the delay in milliseconds and the
action run on the DOM when it fires. -/
abbrev Timer := Nat × (Dom → Dom)

/-- The action of the 5000 ms timer (app.js lines 114-116): add `hidden` to
the message div's class list, unconditionally — whatever message is showing
by then. -/
def hideMessage (d : Dom) : Dom := { d with messageHidden := true }

/-- `signupForm.reset()` (app.js line 105) restores the form controls to
their default values.  Modelled from the spec: the page's HTML is not part
of the repository source; the spec states the fields are reset to empty. -/
def resetForm (d : Dom) : Dom := { d with emailValue := "", selectedActivity := "" }

/-- The signup submit handler (app.js lines 86-123).  Returns the new DOM
and the timers it scheduled.  `response.json()` runs before the `ok` check,
so `body = none` reaches the catch branch regardless of the status; the
catch branch shows the generic error message but schedules no timer. -/
def signupHandler (dom : Dom) (outcome : SignupOutcome) : Dom × List Timer :=
  match outcome with
  | .networkError =>
      ({ dom with messageText := signupNetworkFailText
                , messageClass := "error"
                , messageHidden := false }, [])
  | .response ok body =>
    match body with
    | none =>
        ({ dom with messageText := signupNetworkFailText
                  , messageClass := "error"
                  , messageHidden := false }, [])
    | some b =>
      if ok then
        ({ resetForm dom with
             messageText := textContentOf b.message
           , messageClass := "success"
           , messageHidden := false }, [(5000, hideMessage)])
      else
        ({ dom with messageText := jsOr b.detail signupErrorFallback
                  , messageClass := "error"
                  , messageHidden := false }, [(5000, hideMessage)])

/-- A body whose entries are all well-formed activity objects. -/
def goodEntries (es : List (String × ActivityDetails)) : List Entry :=
  es.map (fun e => (e.1, some e.2))

/-- The Chess Club activity of the spec's scenario. -/
def chessDetails : ActivityDetails :=
  { description := "Weekly"
  , schedule := "Fri 3pm"
  , max_participants := 10
  , participants := ["a@x.com"] }

/-- A DOM in its pristine pre-load state. -/
def emptyDom : Dom :=
  { activitiesList := ListArea.loading
  , selectOptions := []
  , messageText := ""
  , messageClass := ""
  , messageHidden := true
  , emailValue := ""
  , selectedActivity := "" }

/-- A DOM whose select already holds an option before the load runs (as the
page's placeholder option does). -/
def placeholderDom : Dom :=
  { emptyDom with selectOptions := [{ value := "", label := "Select an activity" }] }

/-- The rendered Chess Club card. -/
def sampleCard : Card := renderCard "Chess Club" chessDetails

/-- A DOM right after a successful load of the Chess Club scenario. -/
def sampleDom : Dom :=
  { emptyDom with
    activitiesList := ListArea.content [sampleCard]
  , selectOptions := [renderOption "Chess Club"] }

/-- A parsed signup success body. -/
def sampleOkBody : SignupBody := { message := some "Signed up", detail := none }

/-- A parsed signup failure body. -/
def sampleErrBody : SignupBody := { message := none, detail := some "Already signed up" }

/-! ## Helper lemmas -/

theorem appendCard_content (cs : List Card) (c : Card) :
    appendCard (ListArea.content cs) c = ListArea.content (cs ++ [c]) := rfl

theorem renderLoop_goodEntries_append (es : List (String × ActivityDetails)) :
    ∀ (dom : Dom) (cs : List Card), dom.activitiesList = ListArea.content cs →
      ∀ (tail : List Entry),
        renderLoop dom (goodEntries es ++ tail) =
          renderLoop
            { dom with
              activitiesList := ListArea.content (cs ++ es.map fun e => renderCard e.1 e.2)
              selectOptions := dom.selectOptions ++ es.map fun e => renderOption e.1 } tail := by
  induction es with
  | nil =>
    intro dom cs h tail
    simp [goodEntries, ← h]
  | cons e rest ih =>
    intro dom cs h tail
    have hgood : goodEntries (e :: rest) ++ tail = (e.1, some e.2) :: (goodEntries rest ++ tail) := rfl
    rw [hgood]
    rw [show renderLoop dom ((e.1, some e.2) :: (goodEntries rest ++ tail))
          = renderLoop
              { dom with
                activitiesList := appendCard dom.activitiesList (renderCard e.1 e.2)
                selectOptions := dom.selectOptions ++ [renderOption e.1] }
              (goodEntries rest ++ tail) from rfl]
    rw [h, appendCard_content]
    rw [ih { dom with
              activitiesList := ListArea.content (cs ++ [renderCard e.1 e.2])
              selectOptions := dom.selectOptions ++ [renderOption e.1] }
           (cs ++ [renderCard e.1 e.2]) rfl tail]
    simp [List.append_assoc]

theorem renderLoop_goodEntries (dom : Dom) (cs : List Card)
    (h : dom.activitiesList = ListArea.content cs) (es : List (String × ActivityDetails)) :
    renderLoop dom (goodEntries es) =
      { dom with
        activitiesList := ListArea.content (cs ++ es.map fun e => renderCard e.1 e.2)
        selectOptions := dom.selectOptions ++ es.map fun e => renderOption e.1 } := by
  have h2 := renderLoop_goodEntries_append es dom cs h []
  simpa [renderLoop] using h2

theorem fetchActivities_success (dom : Dom) (ok : Bool) (es : List (String × ActivityDetails)) :
    fetchActivities dom (FetchOutcome.response ok (some (goodEntries es))) =
      { dom with
        activitiesList := ListArea.content (es.map fun e => renderCard e.1 e.2)
        selectOptions := dom.selectOptions ++ es.map fun e => renderOption e.1 } := by
  simp only [fetchActivities]
  rw [renderLoop_goodEntries _ [] rfl]
  simp

theorem fetchActivities_badEntry (dom : Dom) (ok : Bool)
    (es : List (String × ActivityDetails)) (badName : String) (tail : List Entry) :
    fetchActivities dom (FetchOutcome.response ok (some (goodEntries es ++ (badName, none) :: tail))) =
      { dom with
        activitiesList := ListArea.notice
        selectOptions := dom.selectOptions ++ es.map fun e => renderOption e.1 } := by
  simp only [fetchActivities]
  rw [renderLoop_goodEntries_append es _ [] rfl]
  simp [renderLoop]

theorem eraseIdx_map_comm {α β : Type} (f : α → β) :
    ∀ (l : List α) (i : Nat), (l.eraseIdx i).map f = (l.map f).eraseIdx i
  | [], _ => rfl
  | _ :: _, 0 => rfl
  | a :: l, i + 1 => by
      simp only [List.eraseIdx_cons_succ, List.map_cons]
      rw [eraseIdx_map_comm f l i]

theorem getElem_not_mem_eraseIdx_of_nodup {α : Type} :
    ∀ (l : List α) (i : Nat) (h : i < l.length), l.Nodup → l[i] ∉ l.eraseIdx i
  | a :: l, 0, _, hn => by
      simpa using (List.nodup_cons.mp hn).1
  | a :: l, i + 1, h, hn => by
      simp only [List.eraseIdx_cons_succ, List.getElem_cons_succ, List.mem_cons]
      rintro (heq | hmem)
      · exact (List.nodup_cons.mp hn).1 (heq ▸ List.getElem_mem _)
      · exact getElem_not_mem_eraseIdx_of_nodup l i (by simpa using h) (List.nodup_cons.mp hn).2 hmem

/-! ## Claims -/

/-- C3 counterexample: a load whose response is non-2xx (`ok = false`) but
whose body parses as valid JSON does not display the failure notice — the
status is never inspected, so the body is rendered as if the call had
succeeded (here: an empty object renders an empty list, no notice). -/
theorem C3_counterexample_non2xx_no_notice :
    (fetchActivities emptyDom (FetchOutcome.response false (some []))).activitiesList
        = ListArea.content []
    ∧ (fetchActivities emptyDom (FetchOutcome.response false (some []))).activitiesList
        ≠ ListArea.notice := by
  constructor <;> decide

/-- C3 (amended): the load-activities operation displays exactly one static
failure notice and no activity cards — with any partial rendering discarded
and the dropdown left in whatever partial state it reached — exactly when
the operation throws: the fetch rejects (network failure), the body fails
to parse as JSON, or rendering throws on a malformed entry.  The HTTP
status is never inspected, so a non-success response with a valid JSON body
is rendered like a success. -/
theorem C3_failure_notice_on_throw (dom : Dom) (ok : Bool)
    (es : List (String × ActivityDetails)) (badName : String) (tail : List Entry) :
    ((fetchActivities dom FetchOutcome.networkError).activitiesList = ListArea.notice
      ∧ (fetchActivities dom FetchOutcome.networkError).selectOptions = dom.selectOptions)
    ∧ ((fetchActivities dom (FetchOutcome.response ok none)).activitiesList = ListArea.notice
      ∧ (fetchActivities dom (FetchOutcome.response ok none)).selectOptions = dom.selectOptions)
    ∧ (fetchActivities dom (FetchOutcome.response ok (some (goodEntries es)))).activitiesList
        = ListArea.content (es.map fun e => renderCard e.1 e.2)
    ∧ ((fetchActivities dom
          (FetchOutcome.response ok (some (goodEntries es ++ (badName, none) :: tail)))).activitiesList
        = ListArea.notice
      ∧ (fetchActivities dom
          (FetchOutcome.response ok (some (goodEntries es ++ (badName, none) :: tail)))).selectOptions
        = dom.selectOptions ++ es.map fun e => renderOption e.1) := by
  refine ⟨⟨rfl, rfl⟩, ⟨rfl, rfl⟩, ?_, ?_, ?_⟩
  · rw [fetchActivities_success]
  · rw [fetchActivities_badEntry]
  · rw [fetchActivities_badEntry]

/-- C4 counterexample: on a successful load the dropdown is NOT cleared —
an option already present (the page's placeholder) survives, so the
dropdown does not contain exactly one option per returned activity. -/
theorem C4_counterexample_dropdown_not_cleared :
    (fetchActivities placeholderDom
        (FetchOutcome.response true (some (goodEntries [("Chess Club", chessDetails)])))).selectOptions
      = [{ value := "", label := "Select an activity" }, renderOption "Chess Club"]
    ∧ (fetchActivities placeholderDom
        (FetchOutcome.response true (some (goodEntries [("Chess Club", chessDetails)])))).selectOptions
      ≠ [renderOption "Chess Club"] := by
  constructor <;> decide

/-- C4 (amended): on every successful load the existing rendered activity
list is cleared before the new activities are rendered, but the dropdown is
not cleared: exactly one option per activity returned by the server, with
the activity name as both value and label, is appended after the options
already present. -/
theorem C4_list_cleared_options_appended (dom : Dom) (ok : Bool)
    (es : List (String × ActivityDetails)) :
    (fetchActivities dom (FetchOutcome.response ok (some (goodEntries es)))).activitiesList
        = ListArea.content (es.map fun e => renderCard e.1 e.2)
    ∧ (fetchActivities dom (FetchOutcome.response ok (some (goodEntries es)))).selectOptions
        = dom.selectOptions ++ es.map fun e => renderOption e.1 := by
  rw [fetchActivities_success]
  exact ⟨rfl, rfl⟩

/-- C7: on every successful load, one card is rendered per returned
activity, in server order; each card shows the activity's name,
description, schedule, spots-left over max, and one participant row per
roster entry whose removal button carries (activity name, participant
email); on the Chess Club scenario input, the card shows 9/10, one row for
a@x.com, and the dropdown gains the single option Chess Club. -/
theorem C7_successful_load_renders_cards (dom : Dom) (ok : Bool)
    (es : List (String × ActivityDetails)) (name : String) (d : ActivityDetails) :
    (fetchActivities dom (FetchOutcome.response ok (some (goodEntries es)))).activitiesList
        = ListArea.content (es.map fun e => renderCard e.1 e.2)
    ∧ ((renderCard name d).h4 = name
      ∧ (renderCard name d).descriptionText = d.description
      ∧ (renderCard name d).scheduleText = d.schedule
      ∧ (renderCard name d).spotsText
          = toString ((d.max_participants : Int) - (d.participants.length : Int))
              ++ "/" ++ toString d.max_participants
      ∧ (renderCard name d).h5 = countText (d.participants.length : Int)
      ∧ (renderCard name d).rows.map (fun r => r.spanText) = d.participants
      ∧ (renderCard name d).rows.map (fun r => (r.btn.dataActivity, r.btn.dataEmail))
          = d.participants.map (fun p => (name, p)))
    ∧ ((renderCard "Chess Club" chessDetails).spotsText = "9/10"
      ∧ (renderCard "Chess Club" chessDetails).rows
          = [{ spanText := "a@x.com"
             , btn := { dataActivity := "Chess Club", dataEmail := "a@x.com" } }]
      ∧ (fetchActivities emptyDom
            (FetchOutcome.response true (some (goodEntries [("Chess Club", chessDetails)])))).selectOptions
          = [renderOption "Chess Club"]) := by
  refine ⟨?_, ⟨rfl, rfl, rfl, rfl, rfl, ?_, ?_⟩, by decide, by decide, by decide⟩
  · rw [fetchActivities_success]
  · simp only [renderCard, List.map_map]
    exact List.map_id d.participants
  · simp [renderCard]

/-- C8: the displayed spots-left value is max_participants minus the roster
size (as JS signed arithmetic), and for well-formed input — roster size not
exceeding max_participants — it is never negative. -/
theorem C8_spots_left_nonneg (name : String) (d : ActivityDetails)
    (h : d.participants.length ≤ d.max_participants) :
    spotsLeft d = (d.max_participants : Int) - (d.participants.length : Int)
    ∧ 0 ≤ spotsLeft d
    ∧ (renderCard name d).spotsText = toString (spotsLeft d) ++ "/" ++ toString d.max_participants := by
  refine ⟨rfl, ?_, rfl⟩
  have : (d.participants.length : Int) ≤ (d.max_participants : Int) := by exact_mod_cast h
  simpa [spotsLeft] using Int.sub_nonneg.mpr this

/-- C8 witness: the Chess Club activity is well-formed and its spots-left
is non-negative. -/
theorem C8_spots_left_nonneg_witness :
    chessDetails.participants.length ≤ chessDetails.max_participants
    ∧ 0 ≤ spotsLeft chessDetails :=
  ⟨by decide, (C8_spots_left_nonneg "Chess Club" chessDetails (by decide)).2.1⟩

/-- C1: after a successful removal of the participant of row `rowIdx` of
card `cardIdx`, whose heading displayed the count `N`, that row is removed
from the card, the heading now shows exactly `N - 1` (obtained by parsing
the displayed count out of the heading text and subtracting one), the other
fields of the card and every other card are unchanged, no alert is raised,
and the rest of the DOM (options, message area, form) is untouched; when
the roster emails are distinct, no remaining row of the card carries the
removed participant's email. -/
theorem C1_removal_success_updates_card (dom : Dom) (cards : List Card)
    (cardIdx rowIdx : Nat) (card : Card) (N : Nat)
    (hList : dom.activitiesList = ListArea.content cards)
    (hCard : cards[cardIdx]? = some card)
    (hRow : rowIdx < card.rows.length)
    (hN : parseFirstNat card.h5 = some N) :
    ∃ card' : Card,
      (deleteHandler dom cardIdx rowIdx DeleteOutcome.ok).1
        = { dom with activitiesList := ListArea.content (cards.set cardIdx card') }
      ∧ (deleteHandler dom cardIdx rowIdx DeleteOutcome.ok).2 = none
      ∧ card'.h5 = countText ((N : Int) - 1)
      ∧ card'.rows = card.rows.eraseIdx rowIdx
      ∧ card'.rows.length + 1 = card.rows.length
      ∧ card'.h4 = card.h4
      ∧ card'.descriptionText = card.descriptionText
      ∧ card'.scheduleText = card.scheduleText
      ∧ card'.spotsText = card.spotsText
      ∧ (∀ r0, card.rows[rowIdx]? = some r0 →
          (card.rows.map fun r => r.btn.dataEmail).Nodup →
            ∀ r ∈ card'.rows, r.btn.dataEmail ≠ r0.btn.dataEmail)
      ∧ (∀ j, j ≠ cardIdx → (cards.set cardIdx card')[j]? = cards[j]?) := by
  refine ⟨{ card with rows := card.rows.eraseIdx rowIdx, h5 := countText ((N : Int) - 1) },
          ?_, ?_, rfl, rfl, ?_, rfl, rfl, rfl, rfl, ?_, ?_⟩
  · simp [deleteHandler, hList, hCard, applyDeleteOk, hN]
  · simp [deleteHandler, hList, hCard, applyDeleteOk, hN]
  · rw [List.length_eraseIdx_of_lt hRow]
    omega
  · intro r0 hr0 hnd r hr
    have hget : card.rows[rowIdx] = r0 := by
      have h2 := List.getElem?_eq_getElem hRow
      rw [hr0] at h2
      exact (Option.some_inj.mp h2).symm
    have hmap : (card.rows.eraseIdx rowIdx).map (fun r => r.btn.dataEmail)
        = (card.rows.map fun r => r.btn.dataEmail).eraseIdx rowIdx :=
      eraseIdx_map_comm _ card.rows rowIdx
    have hlen : rowIdx < (card.rows.map fun r => r.btn.dataEmail).length := by
      simpa using hRow
    have hnot := getElem_not_mem_eraseIdx_of_nodup
      (card.rows.map fun r => r.btn.dataEmail) rowIdx hlen hnd
    intro heq
    apply hnot
    rw [← hmap]
    have : (card.rows.map fun r => r.btn.dataEmail)[rowIdx] = r0.btn.dataEmail := by
      rw [List.getElem_map]
      rw [hget]
    rw [this, ← heq]
    exact List.mem_map_of_mem _ hr
  · intro j hj
    exact List.getElem?_set_ne (fun h => hj h.symm)

/-- C1 witness: removing the only participant of the rendered Chess Club
card, whose heading displays the count 1. -/
theorem C1_removal_success_updates_card_witness :
    ∃ card' : Card,
      (deleteHandler sampleDom 0 0 DeleteOutcome.ok).1
        = { sampleDom with activitiesList := ListArea.content ([sampleCard].set 0 card') }
      ∧ (deleteHandler sampleDom 0 0 DeleteOutcome.ok).2 = none
      ∧ card'.h5 = countText ((1 : Int) - 1)
      ∧ card'.rows = sampleCard.rows.eraseIdx 0 :=
  match C1_removal_success_updates_card sampleDom [sampleCard] 0 0 sampleCard 1
      rfl rfl (by decide) (by decide) with
  | ⟨c, h1, h2, h3, h4, _⟩ => ⟨c, h1, h2, h3, h4⟩

/-- C6: on every failed removal attempt — non-success response (with or
without a parseable body) or network error — the DOM is left exactly as it
was (the participant's row included), and a blocking alert is raised whose
text is the server-supplied detail when present and non-empty, else the
generic fallback. -/
theorem C6_removal_failure_alert (dom : Dom) (cardIdx rowIdx : Nat)
    (detail : Option String) (d : String) :
    deleteHandler dom cardIdx rowIdx DeleteOutcome.networkError = (dom, some unregisterFallback)
    ∧ deleteHandler dom cardIdx rowIdx (DeleteOutcome.notOk none) = (dom, some unregisterFallback)
    ∧ (deleteHandler dom cardIdx rowIdx (DeleteOutcome.notOk (some detail))).1 = dom
    ∧ (deleteHandler dom cardIdx rowIdx (DeleteOutcome.notOk (some none))).2 = some unregisterFallback
    ∧ (deleteHandler dom cardIdx rowIdx (DeleteOutcome.notOk (some (some "")))).2
        = some unregisterFallback
    ∧ (d ≠ "" →
        (deleteHandler dom cardIdx rowIdx (DeleteOutcome.notOk (some (some d)))).2 = some d) := by
  refine ⟨rfl, rfl, rfl, rfl, rfl, ?_⟩
  intro hd
  simp [deleteHandler, jsOr, hd]

/-- C6 witness: a failed removal with the detail text of the spec's
example leaves the DOM unchanged and alerts with that detail. -/
theorem C6_removal_failure_alert_witness :
    "Already signed up" ≠ ""
    ∧ (deleteHandler sampleDom 0 0 (DeleteOutcome.notOk (some (some "Already signed up")))).2
        = some "Already signed up" :=
  ⟨by decide,
   (C6_removal_failure_alert sampleDom 0 0 none "Already signed up").2.2.2.2.2 (by decide)⟩

/-- C2 counterexample: on a signup attempt that fails with a network error,
the transient message is shown but NO hide timer is scheduled — the catch
branch has no setTimeout — so the message is not hidden 5000 ms later. -/
theorem C2_counterexample_network_error_no_timer :
    (signupHandler emptyDom SignupOutcome.networkError).1.messageHidden = false
    ∧ (signupHandler emptyDom SignupOutcome.networkError).2 = [] :=
  ⟨rfl, rfl⟩

/-- C2 (amended): on a signup attempt that receives a response whose body
parses as JSON — success or non-success alike — exactly one 5000 ms hide
timer is scheduled, and when it fires it hides the message area
unconditionally, regardless of whether a newer message has since been
shown; on a network error, or when the response body fails to parse, the
message is shown but no hide timer is scheduled at all. -/
theorem C2_hide_timer_on_parsed_response (dom d : Dom) (ok : Bool) (b : SignupBody) :
    (signupHandler dom (SignupOutcome.response ok (some b))).2 = [(5000, hideMessage)]
    ∧ (signupHandler dom (SignupOutcome.response ok (some b))).1.messageHidden = false
    ∧ (hideMessage d).messageHidden = true
    ∧ (signupHandler dom SignupOutcome.networkError).2 = []
    ∧ (signupHandler dom (SignupOutcome.response ok none)).2 = [] := by
  refine ⟨?_, ?_, rfl, rfl, rfl⟩ <;> cases ok <;> simp [signupHandler]

/-- C5: a signup attempt shows a success-styled message and resets the
form exactly when the response is a success; the success message is the
server's message text; a non-success response shows an error-styled
message — the server's detail when present and non-empty, else the generic
fallback — and leaves the form fields untouched; a network error likewise
shows an error-styled generic message and leaves the fields untouched. -/
theorem C5_signup_styling_and_reset (dom : Dom) (b : SignupBody) (m d : String) :
    ((signupHandler dom (SignupOutcome.response true (some b))).1.messageClass = "success"
      ∧ (signupHandler dom (SignupOutcome.response true (some b))).1.emailValue = ""
      ∧ (signupHandler dom (SignupOutcome.response true (some b))).1.selectedActivity = ""
      ∧ (signupHandler dom (SignupOutcome.response true (some b))).1.messageHidden = false
      ∧ (b.message = some m →
          (signupHandler dom (SignupOutcome.response true (some b))).1.messageText = m))
    ∧ ((signupHandler dom (SignupOutcome.response false (some b))).1.messageClass = "error"
      ∧ (signupHandler dom (SignupOutcome.response false (some b))).1.emailValue = dom.emailValue
      ∧ (signupHandler dom (SignupOutcome.response false (some b))).1.selectedActivity
          = dom.selectedActivity
      ∧ (signupHandler dom (SignupOutcome.response false (some b))).1.messageHidden = false
      ∧ (b.detail = some d → d ≠ "" →
          (signupHandler dom (SignupOutcome.response false (some b))).1.messageText = d)
      ∧ (b.detail = none →
          (signupHandler dom (SignupOutcome.response false (some b))).1.messageText
            = signupErrorFallback))
    ∧ ((signupHandler dom SignupOutcome.networkError).1.messageClass = "error"
      ∧ (signupHandler dom SignupOutcome.networkError).1.emailValue = dom.emailValue
      ∧ (signupHandler dom SignupOutcome.networkError).1.selectedActivity = dom.selectedActivity
      ∧ (signupHandler dom SignupOutcome.networkError).1.messageText = signupNetworkFailText) := by
  refine ⟨⟨rfl, rfl, rfl, rfl, ?_⟩, ⟨rfl, rfl, rfl, rfl, ?_, ?_⟩, rfl, rfl, rfl, rfl⟩
  · intro hm
    simp [signupHandler, textContentOf, hm]
  · intro hd hne
    simp [signupHandler, jsOr, hd, hne]
  · intro hd
    simp [signupHandler, jsOr, hd]

/-- C5 witness: a successful signup shows the server's message; a failed
signup with detail text shows that detail. -/
theorem C5_signup_styling_and_reset_witness :
    (signupHandler emptyDom (SignupOutcome.response true (some sampleOkBody))).1.messageText
        = "Signed up"
    ∧ (signupHandler emptyDom (SignupOutcome.response false (some sampleErrBody))).1.messageText
        = "Already signed up" :=
  ⟨(C5_signup_styling_and_reset emptyDom sampleOkBody "Signed up" "x").1.2.2.2.2 rfl,
   (C5_signup_styling_and_reset emptyDom sampleErrBody "m" "Already signed up").2.1.2.2.2.2.1
     rfl (by decide)⟩

/-- C9: no signup outcome — success, failed response, or network error —
touches the rendered activity list or the dropdown: no participant row is
added, no displayed count changes, and the transition consumes no further
network call (its only input is the one signup response), so no re-fetch
occurs; the new participant can only appear after the next full page load
re-runs the load operation. -/
theorem C9_signup_leaves_roster_untouched (dom : Dom) (outcome : SignupOutcome) :
    (signupHandler dom outcome).1.activitiesList = dom.activitiesList
    ∧ (signupHandler dom outcome).1.selectOptions = dom.selectOptions := by
  cases outcome with
  | networkError => exact ⟨rfl, rfl⟩
  | response ok body =>
    cases body with
    | none => exact ⟨rfl, rfl⟩
    | some b => cases ok <;> exact ⟨rfl, rfl⟩

/-- C10: a signup response that is a success (2xx) but whose body is not
valid JSON is treated as a transport failure, because the body is parsed
before the ok check: the message area shows the generic network-failure
text with error styling, the form is not reset, and no hide timer is
scheduled. -/
theorem C10_ok_with_invalid_json_is_transport_failure (dom : Dom) :
    signupHandler dom (SignupOutcome.response true none)
      = ({ dom with
            messageText := signupNetworkFailText
          , messageClass := "error"
          , messageHidden := false }, [])
    ∧ (signupHandler dom (SignupOutcome.response true none)).1.emailValue = dom.emailValue
    ∧ (signupHandler dom (SignupOutcome.response true none)).1.selectedActivity
        = dom.selectedActivity
    ∧ (signupHandler dom (SignupOutcome.response true none)).2 = [] :=
  ⟨rfl, rfl, rfl, rfl⟩

end App
